import Mathlib

/-!
Verification of the Scrapper repository (src/main.go), a single-file Go
program that drives a headless browser: it parses one URL argument,
creates a timestamped output directory, navigates, classifies the captured
HTTP status code, and extracts three artifacts (HTML, screenshot, links)
into files, each step best-effort.

The program is embedded shallowly: outcomes of external calls (URL
parsing, directory creation, browser navigation, the three chromedp
queries, JSON unmarshalling, file writes) are inputs in an `Env` record,
and the program is a function from `Env` to the list of observable events
it performs, mirroring the control flow of `main` and its helpers.
-/

/-- File contents written by the program: text (HTML, links) or raw bytes
(the PNG screenshot). -/
inductive FileContent where
  | text (s : String)
  | bin (b : List Nat)
deriving Repr, DecidableEq

/-- Observable events of a run of `main`: directory creation, browser
navigation attempts, the three extraction calls, successful file writes,
fatal termination, and console/log output lines. -/
inductive Event where
  | mkdir (path : String)
  | navigate (url : String)
  | callOuterHTML
  | callScreenshot
  | callEvaluate
  | writeFile (path : String) (content : FileContent)
  | fatal (msg : String)
  | print (msg : String)
  | logMsg (msg : String)
deriving Repr, DecidableEq

/-- `filepath.Join a b` on a Unix system for a clean relative `a` and a
simple file name `b`. -/
def pathJoin (a b : String) : String := a ++ "/" ++ b

/-- Embedding of `listNetworkRequests` (src/main.go lines 206-227): given
the captured status code and status text, the console/log lines it emits.
A zero code returns immediately; otherwise the network line is printed and
the Go `switch` is tried case by case in source order. -/
def listNetworkRequests (code : Int) (text : String) : List Event :=
  if code = 0 then []
  else
    Event.print ("Request network: " ++ toString code ++ " (" ++ text ++ ")") ::
    (if 200 ≤ code ∧ code < 300 then
      [Event.print "Request SUCCESSFUL: Site is accessible."]
    else if 300 ≤ code ∧ code < 400 then
      [Event.print ("Request REDIRECTION (" ++ toString code ++ "): Site is redirecting to another address.")]
    else if code = 403 then
      [Event.logMsg "Request FORBIDDEN (403): Access denied (WAF or Bot Protection)."]
    else if code = 404 then
      [Event.logMsg "Request NOT FOUND (404): Page does not exist."]
    else if 400 ≤ code ∧ code < 500 then
      [Event.logMsg ("Request CLIENT ERROR (" ++ toString code ++ "): " ++ text)]
    else if 500 ≤ code then
      [Event.logMsg ("Request SERVER ERROR (" ++ toString code ++ "): Target site is down or faulty.")]
    else
      [Event.logMsg ("Request UNKNOWN STATUS: " ++ toString code)])

/-- The spec side of claim C1: the category line the spec's lookup table
(2xx / 3xx / 403 / 404 / other 4xx / 5xx and above) prescribes for a
captured main-document status code. -/
def specCategoryEvent (code : Int) (text : String) : Event :=
  if 200 ≤ code ∧ code < 300 then
    Event.print "Request SUCCESSFUL: Site is accessible."
  else if 300 ≤ code ∧ code < 400 then
    Event.print ("Request REDIRECTION (" ++ toString code ++ "): Site is redirecting to another address.")
  else if code = 403 then
    Event.logMsg "Request FORBIDDEN (403): Access denied (WAF or Bot Protection)."
  else if code = 404 then
    Event.logMsg "Request NOT FOUND (404): Page does not exist."
  else if 400 ≤ code ∧ code < 500 then
    Event.logMsg ("Request CLIENT ERROR (" ++ toString code ++ "): " ++ text)
  else
    Event.logMsg ("Request SERVER ERROR (" ++ toString code ++ "): Target site is down or faulty.")

/-- Embedding of `extractLinks` (src/main.go lines 181-203) over the
outcomes of its two external calls: `evalRes` is the result of evaluating
the href-collection script in the page (a JSON string on success), and
`unmarshal` is `json.Unmarshal` into `[]string`. On either failure the Go
function returns `nil` and an error wrapping the cause; otherwise the
decoded list. -/
def extractLinks (evalRes : Except String String)
    (unmarshal : String → Except String (List String)) :
    Except String (List String) :=
  match evalRes with
  | .error e => .error ("error extracting links: " ++ e)
  | .ok jsonResult =>
    match unmarshal jsonResult with
    | .error e => .error ("error unmarshaling JSON: " ++ e)
    | .ok links => .ok links

/-- JavaScript values as far as the href-collection script distinguishes
them: a string, an object carrying its `baseVal` property (`undefined`
when absent, modelled by the payload), `null`, or `undefined`. -/
inductive JSVal where
  | vstr (s : String)
  | vobj (baseVal : JSVal)
  | vnull
  | vundefined
deriving Repr, DecidableEq

/-- The JavaScript `typeof` operator on `JSVal` (note `typeof null` is
`"object"`). -/
def jsTypeof : JSVal → String
  | .vstr _ => "string"
  | .vobj _ => "object"
  | .vnull => "object"
  | .vundefined => "undefined"

/-- Property access `h.baseVal`: the stored property on an object,
`undefined` otherwise (the script only reads it under an object guard). -/
def getBaseVal : JSVal → JSVal
  | .vobj b => b
  | _ => .vundefined

/-- The `map` body of the script in `extractLinks` (src/main.go lines
185-190): if `typeof a.href === 'object' && a.href !== null` the SVG case
returns `a.href.baseVal`, otherwise `a.href` itself. -/
def mapHref (h : JSVal) : JSVal :=
  if jsTypeof h = "object" ∧ h ≠ JSVal.vnull then getBaseVal h else h

/-- The whole script pipeline of `extractLinks` on the `href` values of
the page's anchors: map each href through `mapHref`, then keep exactly
those results `r` with `typeof r === 'string' && r !== ""`. The surviving
strings, in page order, are what `JSON.stringify` serialises and the Go
side decodes. -/
def extractHrefScript (anchors : List JSVal) : List String :=
  (anchors.map mapHref).filterMap fun h =>
    match h with
    | .vstr s => if s ≠ "" then some s else none
    | _ => none

/-- Outcomes of every external call `main` makes, plus its inputs: the
full `os.Args` (index 0 is the program name), the formatted timestamp, the
captured main-document status, and the result of each fallible call in
program order. -/
structure Env where
  args : List String
  timestamp : String
  parseURL : String → Except String String
  mkdirRes : Except String Unit
  statusCode : Int
  statusText : String
  nav1Res : Except String Unit
  nav2Res : Except String Unit
  htmlRes : Except String String
  writeHtmlRes : Except String Unit
  shotRes : Except String (List Nat)
  writeShotRes : Except String Unit
  evalRes : Except String String
  unmarshal : String → Except String (List String)
  writeLinksRes : Except String Unit

/-- The HTML block of `main` (src/main.go lines 108-122) together with the
body of `contentRetrieval`: call OuterHTML; on failure log (both inside
`contentRetrieval` and in `main`) and stop this step; on success write
`page.html`, logging a write failure. -/
def htmlStep (env : Env) (folderPath : String) : List Event :=
  Event.callOuterHTML ::
  match env.htmlRes with
  | .error e =>
    [Event.logMsg ("Error retrieving content: " ++ e),
     Event.logMsg ("Failed to retrieve content: " ++ e)]
  | .ok htmlData =>
    let savePath := pathJoin folderPath "page.html"
    match env.writeHtmlRes with
    | .error e => [Event.logMsg ("Failed to save HTML file: " ++ e)]
    | .ok _ =>
      [Event.writeFile savePath (FileContent.text htmlData),
       Event.print ("HTML content saved to " ++ savePath)]

/-- The screenshot block of `main` (src/main.go lines 124-135) together
with the body of `captureScreenshot`. -/
def shotStep (env : Env) (folderPath : String) : List Event :=
  Event.callScreenshot ::
  match env.shotRes with
  | .error e =>
    [Event.logMsg ("Error capturing screenshot: " ++ e),
     Event.logMsg ("Image fault: " ++ e)]
  | .ok imgData =>
    let savepath := pathJoin folderPath "screenshot.png"
    match env.writeShotRes with
    | .error e => [Event.logMsg ("Failed to save screenshot: " ++ e)]
    | .ok _ =>
      [Event.writeFile savepath (FileContent.bin imgData),
       Event.print ("Screenshot saved to " ++ savepath)]

/-- The links block of `main` (src/main.go lines 137-149): run
`extractLinks`; on failure log and stop this step; on success join the
links with newlines and write `links.txt`, logging a write failure. -/
def linksStep (env : Env) (folderPath : String) : List Event :=
  Event.callEvaluate ::
  match extractLinks env.evalRes env.unmarshal with
  | .error e => [Event.logMsg ("Failed to extract links: " ++ e)]
  | .ok links =>
    let savepath := pathJoin folderPath "links.txt"
    let linksContent := String.intercalate "\n" links
    let n := links.length
    match env.writeLinksRes with
    | .error e => [Event.logMsg ("Failed to save links: " ++ e)]
    | .ok _ =>
      [Event.writeFile savepath (FileContent.text linksContent),
       Event.print ("Links saved to " ++ toString n ++ " links in " ++ savepath)]

/-- The URL argument `os.Args[1]` of a run (only read after the length
check has passed). -/
def argURL (env : Env) : String := env.args.getD 1 ""

/-- Embedding of `main` (src/main.go lines 19-150): argument check, URL
parse, directory creation (each fatal on failure), first navigation with
status classification (fatal on failure, after the classification runs),
second navigation (fatal on failure), then the three best-effort
extraction blocks in order. -/
def run (env : Env) : List Event :=
  if env.args.length < 2 then
    [Event.fatal "Please provide a URL as a command-line argument."]
  else
    let rawURL := argURL env
    Event.print ("Navigating to URL: " ++ rawURL) ::
    match env.parseURL rawURL with
    | .error e => [Event.fatal ("Invalid URL: " ++ e)]
    | .ok hostname =>
      let folderPath := pathJoin "scraped_data" (env.timestamp ++ "_" ++ hostname)
      match env.mkdirRes with
      | .error e => [Event.fatal ("Failed to create directory: " ++ e)]
      | .ok _ =>
        Event.mkdir folderPath ::
        Event.print ("The Registry folder is created." ++ folderPath) ::
        Event.print ("Targeting URL: " ++ rawURL) ::
        Event.navigate rawURL ::
        (listNetworkRequests env.statusCode env.statusText ++
          match env.nav1Res with
          | .error e => [Event.fatal ("Failed to navigate: " ++ e)]
          | .ok _ =>
            Event.navigate rawURL ::
            match env.nav2Res with
            | .error e => [Event.fatal ("Failed to navigate: " ++ e)]
            | .ok _ =>
              htmlStep env folderPath ++ shotStep env folderPath ++
                linksStep env folderPath)

/-- Events that are pure console/log output. -/
def isOutput : Event → Bool
  | .print _ => true
  | .logMsg _ => true
  | _ => false

/-- Is a successful file write. -/
def isWrite : Event → Bool
  | .writeFile _ _ => true
  | _ => false

/-- Is a directory creation. -/
def isMkdir : Event → Bool
  | .mkdir _ => true
  | _ => false

/-- Is a navigation attempt. -/
def isNavigate : Event → Bool
  | .navigate _ => true
  | _ => false

/-- Is one of the three extraction calls. -/
def isCall : Event → Bool
  | .callOuterHTML => true
  | .callScreenshot => true
  | .callEvaluate => true
  | _ => false

/-- The paths of the successful file writes in an event list, in order. -/
def writesOf : List Event → List String
  | [] => []
  | .writeFile p _ :: l => p :: writesOf l
  | _ :: l => writesOf l

/-- C1: for every captured main-document status code of at least 200 (the
range the spec's lookup table covers), `listNetworkRequests` prints the
network line followed by exactly the category message the spec's table
prescribes: SUCCESSFUL on [200,300), REDIRECTION on [300,400), exactly the
FORBIDDEN message on 403 (never the generic client-error one), exactly the
NOT FOUND message on 404, CLIENT ERROR on the rest of [400,500), and
SERVER ERROR on 500 and above. -/
theorem listNetworkRequests_matches_spec_table (code : Int) (text : String)
    (h : 200 ≤ code) :
    listNetworkRequests code text =
      [Event.print ("Request network: " ++ toString code ++ " (" ++ text ++ ")"),
       specCategoryEvent code text] := by
  have h0 : ¬ code = 0 := by omega
  unfold listNetworkRequests specCategoryEvent
  rw [if_neg h0]
  split_ifs <;> first | rfl | omega

/-- Witness for C1 at the interesting input 403: the FORBIDDEN branch
fires, not the generic client-error one. -/
theorem listNetworkRequests_matches_spec_table_witness :
    listNetworkRequests 403 "Forbidden" =
      [Event.print ("Request network: " ++ toString (403 : Int) ++ " (" ++ "Forbidden" ++ ")"),
       specCategoryEvent 403 "Forbidden"] :=
  listNetworkRequests_matches_spec_table 403 "Forbidden" (by decide)

/-- C9: when no main-document response was captured (recorded status code
zero), the classification function prints nothing at all. -/
theorem listNetworkRequests_zero_prints_nothing (text : String) :
    listNetworkRequests 0 text = [] := by
  simp [listNetworkRequests]

/-- C4: `extractLinks` returns the JSON-decoded list exactly when the
script evaluation succeeded and its JSON result decoded into a list of
strings, and returns an error exactly when the evaluation failed or the
decode failed (the Go error return carries a nil list, modelled by the
`error` constructor carrying no list). -/
theorem extractLinks_ok_and_error_characterisation
    (er : Except String String)
    (um : String → Except String (List String)) :
    (∀ l, extractLinks er um = Except.ok l ↔
      ∃ j, er = Except.ok j ∧ um j = Except.ok l) ∧
    ((∃ e, extractLinks er um = Except.error e) ↔
      (∃ e, er = Except.error e) ∨
        ∃ j e, er = Except.ok j ∧ um j = Except.error e) := by
  cases er with
  | error e => simp [extractLinks]
  | ok j =>
    cases h : um j with
    | error e => simp [extractLinks, h]
    | ok links => simp [extractLinks, h]

/-- C10: every string in the list produced by the href-collection script
of the link extraction operation is non-empty (empty-string hrefs and
non-string hrefs, after substituting `baseVal` for SVG object hrefs, are
filtered out). -/
theorem extractHrefScript_all_nonempty (anchors : List JSVal) (s : String)
    (h : s ∈ extractHrefScript anchors) : s ≠ "" := by
  unfold extractHrefScript at h
  obtain ⟨v, hv, hm⟩ := List.mem_filterMap.mp h
  cases v with
  | vstr t =>
    by_cases ht : t = ""
    · simp [ht] at hm
    · simp [ht] at hm
      rw [← hm]
      exact ht
  | vobj b => simp at hm
  | vnull => simp at hm
  | vundefined => simp at hm

/-- Witness for C10: a page with a plain string anchor, an SVG-object
anchor, an empty-href anchor and a null-href anchor yields only the two
non-empty strings. -/
theorem extractHrefScript_all_nonempty_witness : "https://a.example/" ≠ "" :=
  extractHrefScript_all_nonempty
    [JSVal.vstr "https://a.example/", JSVal.vobj (JSVal.vstr "svg.link"),
     JSVal.vstr "", JSVal.vnull]
    "https://a.example/" (by decide)

/-- Every event the status classifier emits is console/log output. -/
theorem listNetworkRequests_all_output (c : Int) (t : String) :
    ∀ e ∈ listNetworkRequests c t, isOutput e = true := by
  unfold listNetworkRequests
  split_ifs <;> simp [isOutput]

/-- Console/log output is never an extraction call. -/
theorem isCall_false_of_isOutput (e : Event) (h : isOutput e = true) :
    isCall e = false := by
  cases e <;> simp_all [isOutput, isCall]

/-- C2: failure of either navigation attempt terminates the run before any
extraction call is made, whereas once navigation has succeeded all three
extraction calls are made regardless of which extraction or write steps
fail. -/
theorem navigation_fatal_extraction_best_effort (env : Env) :
    (((∃ e, env.nav1Res = Except.error e) ∨ (∃ e, env.nav2Res = Except.error e)) →
      (run env).countP (fun e => isCall e) = 0) ∧
    ((¬ env.args.length < 2) →
      (∃ h, env.parseURL (argURL env) = Except.ok h) →
      env.mkdirRes = Except.ok () →
      env.nav1Res = Except.ok () → env.nav2Res = Except.ok () →
      Event.callOuterHTML ∈ run env ∧ Event.callScreenshot ∈ run env ∧
        Event.callEvaluate ∈ run env) := by
  constructor
  · intro hor
    rw [List.countP_eq_zero]
    intro e he
    suffices h : isCall e = false by simp [h]
    by_cases hargs : env.args.length < 2
    · simp [run, hargs] at he
      subst he; rfl
    · rcases hp : env.parseURL (argURL env) with ep | host
      · simp [run, hargs, hp] at he
        rcases he with rfl | rfl <;> rfl
      · rcases hm : env.mkdirRes with em | um
        · simp [run, hargs, hp, hm] at he
          rcases he with rfl | rfl <;> rfl
        · rcases h1 : env.nav1Res with e1 | u1
          · simp [run, hargs, hp, hm, h1] at he
            rcases he with rfl | rfl | rfl | rfl | rfl | hlnr | rfl
            · rfl
            · rfl
            · rfl
            · rfl
            · rfl
            · exact isCall_false_of_isOutput e
                (listNetworkRequests_all_output _ _ e hlnr)
            · rfl
          · rcases h2 : env.nav2Res with e2 | u2
            · simp [run, hargs, hp, hm, h1, h2] at he
              rcases he with rfl | rfl | rfl | rfl | rfl | hlnr | rfl | rfl
              · rfl
              · rfl
              · rfl
              · rfl
              · rfl
              · exact isCall_false_of_isOutput e
                  (listNetworkRequests_all_output _ _ e hlnr)
              · rfl
              · rfl
            · exfalso
              rcases hor with ⟨er, hh⟩ | ⟨er, hh⟩
              · rw [hh] at h1; cases h1
              · rw [hh] at h2; cases h2
  · rintro hargs ⟨host, hp⟩ hm h1 h2
    refine ⟨?_, ?_, ?_⟩ <;>
      simp [run, hargs, hp, hm, h1, h2, htmlStep, shotStep, linksStep]

/-- Shared concrete environment of a fully successful run, used to witness
the run-level theorems on concrete inputs. -/
def cenv : Env where
  args := ["scrapper", "http://x.test/"]
  timestamp := "2026-10-11_00-00-00"
  parseURL := fun _ => .ok "x.test"
  mkdirRes := .ok ()
  statusCode := 200
  statusText := "OK"
  nav1Res := .ok ()
  nav2Res := .ok ()
  htmlRes := .ok "<html></html>"
  writeHtmlRes := .ok ()
  shotRes := .ok [137, 80, 78, 71]
  writeShotRes := .ok ()
  evalRes := .ok "j"
  unmarshal := fun _ => .ok ["http://x.test/a"]
  writeLinksRes := .ok ()

/-- Witness for C2: with the first navigation failing no extraction call
happens, and in the fully successful environment all three calls happen. -/
theorem navigation_fatal_extraction_best_effort_witness :
    (run { cenv with nav1Res := .error "net down" }).countP
        (fun e => isCall e) = 0 ∧
      (Event.callOuterHTML ∈ run cenv ∧ Event.callScreenshot ∈ run cenv ∧
        Event.callEvaluate ∈ run cenv) :=
  ⟨(navigation_fatal_extraction_best_effort
      { cenv with nav1Res := .error "net down" }).1 (Or.inl ⟨"net down", rfl⟩),
   (navigation_fatal_extraction_best_effort cenv).2 (by decide)
      ⟨"x.test", rfl⟩ rfl rfl rfl⟩

/-- C8: with fewer than two entries in `os.Args` (no URL argument) the run
is exactly one fatal event, and whenever URL parsing fails the run creates
no directory, writes no file, and ends in a fatal event. -/
theorem argument_validation_fatal_before_outputs (env : Env) :
    (env.args.length < 2 →
      run env = [Event.fatal "Please provide a URL as a command-line argument."]) ∧
    ((∃ e, env.parseURL (argURL env) = Except.error e) →
      (run env).countP (fun e => isMkdir e) = 0 ∧
      (run env).countP (fun e => isWrite e) = 0 ∧
      ∃ m, (run env).getLast? = some (Event.fatal m)) := by
  constructor
  · intro h
    simp [run, h]
  · rintro ⟨e, hp⟩
    by_cases hargs : env.args.length < 2
    · refine ⟨?_, ?_, ?_⟩ <;> simp [run, hargs, isMkdir, isWrite]
    · refine ⟨?_, ?_, ?_⟩ <;> simp [run, hargs, hp, isMkdir, isWrite]

/-- Appending event lists appends their write paths. -/
theorem writesOf_append (l1 l2 : List Event) :
    writesOf (l1 ++ l2) = writesOf l1 ++ writesOf l2 := by
  induction l1 with
  | nil => rfl
  | cons e l ih => cases e <;> simp [writesOf, ih]

/-- The status classifier writes no file. -/
theorem writesOf_listNetworkRequests (c : Int) (t : String) :
    writesOf (listNetworkRequests c t) = [] := by
  unfold listNetworkRequests
  split_ifs <;> rfl

/-- String concatenation is left-cancellative. -/
theorem string_append_left_cancel (x a b : String) (h : x ++ a = x ++ b) :
    a = b := by
  have hd := congrArg String.data h
  simp [String.data_append] at hd
  exact String.ext hd

/-- Joining distinct file names onto the same directory yields distinct
paths. -/
theorem pathJoin_ne_of_ne (fp a b : String) (h : a ≠ b) :
    pathJoin fp a ≠ pathJoin fp b := by
  intro he
  exact h (string_append_left_cancel (fp ++ "/") a b he)

/-- The HTML block writes at most `page.html`. -/
theorem writesOf_htmlStep (env : Env) (fp : String) :
    List.Sublist (writesOf (htmlStep env fp)) [pathJoin fp "page.html"] := by
  unfold htmlStep
  rcases hh : env.htmlRes with e | d
  · simp [writesOf]
  · rcases hw : env.writeHtmlRes with e | u <;> simp [writesOf]

/-- The screenshot block writes at most `screenshot.png`. -/
theorem writesOf_shotStep (env : Env) (fp : String) :
    List.Sublist (writesOf (shotStep env fp)) [pathJoin fp "screenshot.png"] := by
  unfold shotStep
  rcases hh : env.shotRes with e | d
  · simp [writesOf]
  · rcases hw : env.writeShotRes with e | u <;> simp [writesOf]

/-- The links block writes at most `links.txt`. -/
theorem writesOf_linksStep (env : Env) (fp : String) :
    List.Sublist (writesOf (linksStep env fp)) [pathJoin fp "links.txt"] := by
  unfold linksStep
  rcases hh : extractLinks env.evalRes env.unmarshal with e | d
  · simp [writesOf]
  · rcases hw : env.writeLinksRes with e | u <;> simp [writesOf]

/-- Every run's write paths form a sublist of the three artifact paths of
some folder. -/
theorem writesOf_run_sublist (env : Env) :
    ∃ fp, List.Sublist (writesOf (run env))
      [pathJoin fp "page.html", pathJoin fp "screenshot.png",
       pathJoin fp "links.txt"] := by
  by_cases hargs : env.args.length < 2
  · exact ⟨"", by simp [run, hargs, writesOf]⟩
  · rcases hp : env.parseURL (argURL env) with ep | host
    · exact ⟨"", by simp [run, hargs, hp, writesOf]⟩
    · refine ⟨pathJoin "scraped_data" (env.timestamp ++ "_" ++ host), ?_⟩
      rcases hm : env.mkdirRes with em | um
      · simp [run, hargs, hp, hm, writesOf]
      · rcases h1 : env.nav1Res with e1 | u1
        · simp [run, hargs, hp, hm, h1, writesOf, writesOf_append,
            writesOf_listNetworkRequests]
        · rcases h2 : env.nav2Res with e2 | u2
          · simp [run, hargs, hp, hm, h1, h2, writesOf, writesOf_append,
              writesOf_listNetworkRequests]
          · simp only [run, hargs, hp, hm, h1, h2, if_neg hargs]
            simp [writesOf, writesOf_append, writesOf_listNetworkRequests]
            exact List.Sublist.append (writesOf_htmlStep env _)
              (List.Sublist.append (writesOf_shotStep env _)
                (writesOf_linksStep env _))

/-- C7: in every run, each output file path is written at most once — the
list of written paths has no duplicate, so no file is overwritten or
appended to after its single write. -/
theorem output_files_written_at_most_once (env : Env) :
    (writesOf (run env)).Nodup := by
  obtain ⟨fp, hsub⟩ := writesOf_run_sublist env
  have h12 : pathJoin fp "page.html" ≠ pathJoin fp "screenshot.png" :=
    pathJoin_ne_of_ne fp _ _ (by decide)
  have h13 : pathJoin fp "page.html" ≠ pathJoin fp "links.txt" :=
    pathJoin_ne_of_ne fp _ _ (by decide)
  have h23 : pathJoin fp "screenshot.png" ≠ pathJoin fp "links.txt" :=
    pathJoin_ne_of_ne fp _ _ (by decide)
  refine List.Nodup.sublist hsub ?_
  refine List.nodup_cons.mpr ⟨?_, List.nodup_cons.mpr ⟨?_, List.nodup_singleton _⟩⟩
  · simp [h12, h13]
  · simp [h23]

/-- The shape of a run once the argument check, URL parse, directory
creation and both navigations have succeeded: the fixed prefix, the status
classification output, the second navigation, then the three extraction
blocks in order. -/
theorem run_success_eq (env : Env) (host : String)
    (hargs : ¬ env.args.length < 2)
    (hp : env.parseURL (argURL env) = Except.ok host)
    (hm : env.mkdirRes = Except.ok ())
    (h1 : env.nav1Res = Except.ok ())
    (h2 : env.nav2Res = Except.ok ()) :
    run env =
      Event.print ("Navigating to URL: " ++ argURL env) ::
      Event.mkdir (pathJoin "scraped_data" (env.timestamp ++ "_" ++ host)) ::
      Event.print ("The Registry folder is created." ++
        pathJoin "scraped_data" (env.timestamp ++ "_" ++ host)) ::
      Event.print ("Targeting URL: " ++ argURL env) ::
      Event.navigate (argURL env) ::
      (listNetworkRequests env.statusCode env.statusText ++
        (Event.navigate (argURL env) ::
          (htmlStep env (pathJoin "scraped_data" (env.timestamp ++ "_" ++ host)) ++
            (shotStep env (pathJoin "scraped_data" (env.timestamp ++ "_" ++ host)) ++
              linksStep env (pathJoin "scraped_data" (env.timestamp ++ "_" ++ host)))))) := by
  simp [run, hargs, hp, hm, h1, h2]

/-- The status classifier creates no directory and writes no file. -/
theorem filter_lnr_structural (c : Int) (t : String) :
    (listNetworkRequests c t).filter (fun e => isMkdir e) = [] ∧
    (listNetworkRequests c t).filter (fun e => isWrite e) = [] := by
  unfold listNetworkRequests
  constructor <;> (split_ifs <;> rfl)

/-- C3: in a run where navigation and all three extractions (and their
writes) succeed, exactly one directory is created, named from the run
timestamp and the URL's hostname, and exactly the three files page.html,
screenshot.png and links.txt are written into it — no other files. -/
theorem success_run_writes_exactly_three_files (env : Env)
    (host html : String) (img : List Nat) (j : String) (links : List String)
    (hargs : ¬ env.args.length < 2)
    (hp : env.parseURL (argURL env) = Except.ok host)
    (hm : env.mkdirRes = Except.ok ())
    (h1 : env.nav1Res = Except.ok ())
    (h2 : env.nav2Res = Except.ok ())
    (hhtml : env.htmlRes = Except.ok html)
    (hwh : env.writeHtmlRes = Except.ok ())
    (hshot : env.shotRes = Except.ok img)
    (hws : env.writeShotRes = Except.ok ())
    (heval : env.evalRes = Except.ok j)
    (hum : env.unmarshal j = Except.ok links)
    (hwl : env.writeLinksRes = Except.ok ()) :
    (run env).filter (fun e => isMkdir e) =
      [Event.mkdir (pathJoin "scraped_data" (env.timestamp ++ "_" ++ host))] ∧
    (run env).filter (fun e => isWrite e) =
      [Event.writeFile
         (pathJoin (pathJoin "scraped_data" (env.timestamp ++ "_" ++ host)) "page.html")
         (FileContent.text html),
       Event.writeFile
         (pathJoin (pathJoin "scraped_data" (env.timestamp ++ "_" ++ host)) "screenshot.png")
         (FileContent.bin img),
       Event.writeFile
         (pathJoin (pathJoin "scraped_data" (env.timestamp ++ "_" ++ host)) "links.txt")
         (FileContent.text (String.intercalate "\n" links))] := by
  have hfull := run_success_eq env host hargs hp hm h1 h2
  rw [hfull]
  constructor <;>
    (simp [htmlStep, shotStep, linksStep, extractLinks, hhtml, hwh, hshot,
       hws, heval, hum, hwl, isMkdir, isWrite, List.filter_append];
     intro a ha;
     have hout := listNetworkRequests_all_output env.statusCode env.statusText a ha;
     cases a <;> simp_all [isOutput])

/-- Witness for C3: in the concrete fully-successful environment the run
creates one directory and writes exactly the three artifact files. -/
theorem success_run_writes_exactly_three_files_witness :
    (run cenv).filter (fun e => isMkdir e) =
      [Event.mkdir (pathJoin "scraped_data" (cenv.timestamp ++ "_" ++ "x.test"))] ∧
    (run cenv).filter (fun e => isWrite e) =
      [Event.writeFile
         (pathJoin (pathJoin "scraped_data" (cenv.timestamp ++ "_" ++ "x.test")) "page.html")
         (FileContent.text "<html></html>"),
       Event.writeFile
         (pathJoin (pathJoin "scraped_data" (cenv.timestamp ++ "_" ++ "x.test")) "screenshot.png")
         (FileContent.bin [137, 80, 78, 71]),
       Event.writeFile
         (pathJoin (pathJoin "scraped_data" (cenv.timestamp ++ "_" ++ "x.test")) "links.txt")
         (FileContent.text (String.intercalate "\n" ["http://x.test/a"]))] :=
  success_run_writes_exactly_three_files cenv "x.test" "<html></html>"
    [137, 80, 78, 71] "j" ["http://x.test/a"] (by decide) rfl rfl rfl rfl
    rfl rfl rfl rfl rfl rfl rfl

/-- The status classifier performs no navigation. -/
theorem countP_lnr_isNavigate (c : Int) (t : String) :
    (listNetworkRequests c t).countP (fun e => isNavigate e) = 0 := by
  unfold listNetworkRequests
  split_ifs <;> rfl

/-- Counterexample to C6 as stated: in a fully successful concrete run the
program performs the navigation step twice (once before the status
classification and once again afterwards), not exactly once. -/
theorem run_navigates_twice_counterexample :
    (run cenv).countP (fun e => isNavigate e) = 2 ∧
      ¬ (run cenv).countP (fun e => isNavigate e) = 1 := by
  constructor
  · rfl
  · decide

/-- C6 amended: every fully successful run performs its steps in the
linear order parse argument, create output directory, first navigation,
status classification, second navigation, then the three extract-and-write
blocks in order — and the navigation step is performed exactly twice, the
others once. -/
theorem run_linear_order_two_navigations (env : Env)
    (host html : String) (img : List Nat) (j : String) (links : List String)
    (hargs : ¬ env.args.length < 2)
    (hp : env.parseURL (argURL env) = Except.ok host)
    (hm : env.mkdirRes = Except.ok ())
    (h1 : env.nav1Res = Except.ok ())
    (h2 : env.nav2Res = Except.ok ())
    (hhtml : env.htmlRes = Except.ok html)
    (hwh : env.writeHtmlRes = Except.ok ())
    (hshot : env.shotRes = Except.ok img)
    (hws : env.writeShotRes = Except.ok ())
    (heval : env.evalRes = Except.ok j)
    (hum : env.unmarshal j = Except.ok links)
    (hwl : env.writeLinksRes = Except.ok ()) :
    run env =
      Event.print ("Navigating to URL: " ++ argURL env) ::
      Event.mkdir (pathJoin "scraped_data" (env.timestamp ++ "_" ++ host)) ::
      Event.print ("The Registry folder is created." ++
        pathJoin "scraped_data" (env.timestamp ++ "_" ++ host)) ::
      Event.print ("Targeting URL: " ++ argURL env) ::
      Event.navigate (argURL env) ::
      (listNetworkRequests env.statusCode env.statusText ++
        (Event.navigate (argURL env) ::
          [Event.callOuterHTML,
           Event.writeFile
             (pathJoin (pathJoin "scraped_data" (env.timestamp ++ "_" ++ host)) "page.html")
             (FileContent.text html),
           Event.print ("HTML content saved to " ++
             pathJoin (pathJoin "scraped_data" (env.timestamp ++ "_" ++ host)) "page.html"),
           Event.callScreenshot,
           Event.writeFile
             (pathJoin (pathJoin "scraped_data" (env.timestamp ++ "_" ++ host)) "screenshot.png")
             (FileContent.bin img),
           Event.print ("Screenshot saved to " ++
             pathJoin (pathJoin "scraped_data" (env.timestamp ++ "_" ++ host)) "screenshot.png"),
           Event.callEvaluate,
           Event.writeFile
             (pathJoin (pathJoin "scraped_data" (env.timestamp ++ "_" ++ host)) "links.txt")
             (FileContent.text (String.intercalate "\n" links)),
           Event.print ("Links saved to " ++ toString links.length ++
             " links in " ++
             pathJoin (pathJoin "scraped_data" (env.timestamp ++ "_" ++ host)) "links.txt")])) ∧
    (run env).countP (fun e => isNavigate e) = 2 := by
  have hfull := run_success_eq env host hargs hp hm h1 h2
  have hsteps : run env =
      Event.print ("Navigating to URL: " ++ argURL env) ::
      Event.mkdir (pathJoin "scraped_data" (env.timestamp ++ "_" ++ host)) ::
      Event.print ("The Registry folder is created." ++
        pathJoin "scraped_data" (env.timestamp ++ "_" ++ host)) ::
      Event.print ("Targeting URL: " ++ argURL env) ::
      Event.navigate (argURL env) ::
      (listNetworkRequests env.statusCode env.statusText ++
        (Event.navigate (argURL env) ::
          [Event.callOuterHTML,
           Event.writeFile
             (pathJoin (pathJoin "scraped_data" (env.timestamp ++ "_" ++ host)) "page.html")
             (FileContent.text html),
           Event.print ("HTML content saved to " ++
             pathJoin (pathJoin "scraped_data" (env.timestamp ++ "_" ++ host)) "page.html"),
           Event.callScreenshot,
           Event.writeFile
             (pathJoin (pathJoin "scraped_data" (env.timestamp ++ "_" ++ host)) "screenshot.png")
             (FileContent.bin img),
           Event.print ("Screenshot saved to " ++
             pathJoin (pathJoin "scraped_data" (env.timestamp ++ "_" ++ host)) "screenshot.png"),
           Event.callEvaluate,
           Event.writeFile
             (pathJoin (pathJoin "scraped_data" (env.timestamp ++ "_" ++ host)) "links.txt")
             (FileContent.text (String.intercalate "\n" links)),
           Event.print ("Links saved to " ++ toString links.length ++
             " links in " ++
             pathJoin (pathJoin "scraped_data" (env.timestamp ++ "_" ++ host)) "links.txt")])) := by
    rw [hfull]
    simp [htmlStep, shotStep, linksStep, extractLinks, hhtml, hwh, hshot,
      hws, heval, hum, hwl]
  refine ⟨hsteps, ?_⟩
  rw [hsteps]
  simp [List.countP_cons, List.countP_append, isNavigate]
  intro a ha
  have hout := listNetworkRequests_all_output env.statusCode env.statusText a ha
  cases a <;> simp_all [isOutput]

/-- Witness for the amended C6: in the concrete fully-successful
environment the navigation step is performed exactly twice. -/
theorem run_linear_order_two_navigations_witness :
    (run cenv).countP (fun e => isNavigate e) = 2 :=
  (run_linear_order_two_navigations cenv "x.test" "<html></html>"
    [137, 80, 78, 71] "j" ["http://x.test/a"] (by decide) rfl rfl rfl rfl
    rfl rfl rfl rfl rfl rfl rfl).2

/-- C5: whenever link extraction succeeds, the links block writes to
links.txt exactly the link strings joined by single newline characters in
extraction order (and nothing else is ever written by that block). -/
theorem links_written_joined_by_newlines (env : Env) (fp : String)
    (links : List String)
    (hok : extractLinks env.evalRes env.unmarshal = Except.ok links) :
    (env.writeLinksRes = Except.ok () →
      Event.writeFile (pathJoin fp "links.txt")
        (FileContent.text (String.intercalate "\n" links)) ∈ linksStep env fp) ∧
    (∀ p c, Event.writeFile p c ∈ linksStep env fp →
      p = pathJoin fp "links.txt" ∧
        c = FileContent.text (String.intercalate "\n" links)) := by
  constructor
  · intro hw
    simp [linksStep, hok, hw]
  · intro p c hmem
    rcases hw : env.writeLinksRes with e | u
    · simp [linksStep, hok, hw] at hmem
    · simp [linksStep, hok, hw] at hmem
      exact hmem

/-- Witness for C5: the concrete successful environment writes the joined
link list into links.txt. -/
theorem links_written_joined_by_newlines_witness :
    Event.writeFile (pathJoin "out" "links.txt")
      (FileContent.text (String.intercalate "\n" ["http://x.test/a"])) ∈
      linksStep cenv "out" :=
  (links_written_joined_by_newlines cenv "out" ["http://x.test/a"] rfl).1 rfl

/-- Witness for C8: with no URL argument the run is a single fatal event,
and with an argument the URL parser rejects, no directory is created and
no file is written. -/
theorem argument_validation_fatal_before_outputs_witness :
    run { cenv with args := ["scrapper"] } =
      [Event.fatal "Please provide a URL as a command-line argument."] ∧
    (run { cenv with parseURL := fun _ => .error "bad" }).countP
        (fun e => isMkdir e) = 0 ∧
    (run { cenv with parseURL := fun _ => .error "bad" }).countP
        (fun e => isWrite e) = 0 :=
  ⟨(argument_validation_fatal_before_outputs { cenv with args := ["scrapper"] }).1
     (by decide),
   ((argument_validation_fatal_before_outputs
       { cenv with parseURL := fun _ => .error "bad" }).2 ⟨"bad", rfl⟩).1,
   ((argument_validation_fatal_before_outputs
       { cenv with parseURL := fun _ => .error "bad" }).2 ⟨"bad", rfl⟩).2.1⟩
